import Mathlib

/-!
Shallow embedding of `src/yara_wrapper.cpp` (namespace `yara`): the Yara
scanner wrapper of Spike Guard.  The wrapper manages a compiled rule set,
loads or compiles rules from disk, drives scans over byte buffers or files,
and translates the engine callback events into `Match` records.

External engine behaviour (yr_rules_load, yr_rules_scan_mem, ...) is
abstracted by environments supplying the return codes and callback events;
the wrapper logic itself (branching, state updates, excerpt rendering) is
translated faithfully from the source.
-/

namespace YaraWrapper

/-- Engine status codes from the yara headers used by the wrapper.  Only
their distinctness matters to the wrapper logic. -/
def ERROR_SUCCESS : Nat := 0

/-- Status code returned by yr_rules_load when the file is not a compiled
rule file (the wrapper then falls back to compiling the source). -/
def ERROR_INVALID_FILE : Nat := 6

/-- Status code a callback returns to make the engine abort the scan. -/
def ERROR_CALLBACK_ERROR : Nat := 20

/-- Callback return telling the engine to keep evaluating rules. -/
def CALLBACK_CONTINUE : Nat := 0

/-- One byte-level match occurrence of a pattern (YR_MATCH): the matched
bytes, with length equal to the list length. -/
structure YrMatch where
  data : List Nat
deriving DecidableEq, Repr

/-- One string pattern of a rule (YR_STRING): whether it is a hex pattern,
whether it matched, and its list of match occurrences. -/
structure YrString where
  is_hex : Bool
  found : Bool
  match_list : List YrMatch
deriving DecidableEq, Repr

/-- A rule (YR_RULE) as seen by the callback: metadata pairs and string
patterns, both sentinel-terminated arrays in the source, lists here. -/
structure YrRule where
  metas : List (String × String)
  strings : List YrString
deriving DecidableEq, Repr

/-- The result record built by the callback for one matching rule. -/
structure Match where
  metadata : List (String × String)
  found_strings : List String
deriving DecidableEq, Repr

/-- Minimal-width lowercase hexadecimal rendering of a byte value, as
produced by streaming the value into a stream that had std::hex set. -/
def hexOf (b : Nat) : String :=
  (Nat.toDigits 16 b).asString

/-- Embeds lines 268-279 of the source: the hex-pattern excerpt.  The loop
streams the first min(20, length) bytes, each followed by one space, and
appends "..." when the match is longer than 20 bytes. -/
def hexByteExcerpt (data : List Nat) : String :=
  let body := ((data.take (min 20 data.length)).map (fun b => hexOf b ++ " ")).foldl
    (fun a s => a ++ s) ""
  if 20 < data.length then body ++ "..." else body

/-- Embeds lines 261-267 of the source: the textual-pattern excerpt.  The
matched bytes are taken as characters and every null character is removed
(erase/remove idiom of the source). -/
def textExcerpt (data : List Nat) : String :=
  ⟨(data.map (fun b => Char.ofNat b)).filter (fun c => c ≠ Char.ofNat 0)⟩

/-- Excerpts contributed by one string pattern: one per match occurrence
when the pattern was found, rendered per pattern kind. -/
def stringExcerpts (s : YrString) : List String :=
  if s.found then
    s.match_list.map (fun m => if s.is_hex then hexByteExcerpt m.data else textExcerpt m.data)
  else []

/-- The Match record the callback builds for a CALLBACK_MSG_RULE_MATCHING
event: all metadata pairs in order, then all found-string excerpts in
pattern order. -/
def buildMatch (r : YrRule) : Match :=
  { metadata := r.metas
    found_strings := (r.strings.map stringExcerpts).flatten }

/-- Caller-supplied auxiliary data for the sgpe module (sgpe_data in the
source); its contents are opaque to the wrapper. -/
structure SgpeData where
  val : Nat
deriving DecidableEq, Repr

/-- The callback_data record handed to the engine: the accumulated matches
and the optional sgpe data (pe_info, set only by scan_file). -/
structure CallbackState where
  yara_matches : List Match
  pe_info : Option SgpeData
deriving DecidableEq, Repr

/-- The callback events dispatched on in get_match_data. -/
inductive CallbackMsg where
  | ruleMatching (rule : YrRule)
  | ruleNotMatching
  | importModule (module_name : String)
  | scanFinished
  | other (message : Nat)
deriving DecidableEq, Repr

/-- Result of one callback invocation: the code returned to the engine, the
updated callback data, and the value the callback wrote into the slot for
module data (mi->module_data), if any. -/
structure CallbackRet where
  code : Nat
  st : CallbackState
  module_data : Option SgpeData
deriving DecidableEq, Repr

/-- Embeds get_match_data (lines 224-314).  The null cb_data guard of the
source is omitted: both scan functions always pass a valid record. -/
def get_match_data (message : CallbackMsg) (cb : CallbackState) : CallbackRet :=
  match message with
  | .ruleMatching rule =>
      { code := CALLBACK_CONTINUE
        st := { cb with yara_matches := cb.yara_matches ++ [buildMatch rule] }
        module_data := none }
  | .ruleNotMatching =>
      { code := CALLBACK_CONTINUE, st := cb, module_data := none }
  | .importModule module_name =>
      if module_name = "sgpe" then
        match cb.pe_info with
        | none => { code := ERROR_CALLBACK_ERROR, st := cb, module_data := none }
        | some d => { code := ERROR_SUCCESS, st := cb, module_data := some d }
      else
        { code := ERROR_SUCCESS, st := cb, module_data := none }
  | .scanFinished =>
      { code := ERROR_SUCCESS, st := cb, module_data := none }
  | .other _ =>
      { code := ERROR_SUCCESS, st := cb, module_data := none }

/-- Two-digit zero-padded lowercase hexadecimal rendering of a byte, per
the wording of the spec (space-separated two-digit hexadecimal values). -/
def twoDigitHex (b : Nat) : String :=
  (Nat.toDigits 16 (b / 16)).asString ++ (Nat.toDigits 16 (b % 16)).asString

/-- The hex excerpt as the spec words it: the first min(20, length) bytes
as two-digit hexadecimal values, each followed by a space, then the
truncation marker when more than 20 bytes matched.  Used to compare the
claimed rendering with the one the source produces. -/
def hexPairExcerptSpec (data : List Nat) : String :=
  ((data.take (min 20 data.length)).map (fun b => twoDigitHex b ++ " ")).foldl
    (fun a s => a ++ s) ""
  ++ (if 20 < data.length then "..." else "")

/-- Independently structured rendering of the hex excerpt body: at most n
byte tokens, produced by recursion on the byte list. -/
def hexTokens : Nat → List Nat → List String
  | _, [] => []
  | 0, _ :: _ => []
  | n + 1, b :: bs => (hexOf b ++ " ") :: hexTokens n bs

/-- The textual excerpt as the spec words it: the matched bytes with every
null byte removed, interpreted as text. -/
def textExcerptSpec (data : List Nat) : String :=
  ⟨(data.filter (fun b => b ≠ 0)).map Char.ofNat⟩

/-- Observable side effects of load_rules: filesystem checks, rule file
loads, source file opens and closes, compilation, artifact saves. -/
inductive LoadEvent where
  | existsCheck (path : String)
  | rulesLoad (path : String)
  | fileOpen (path : String)
  | addFile (path : String)
  | rulesSave (path : String)
  | fileClose
deriving DecidableEq, Repr

/-- The mutable fields of the Yara object, plus bookkeeping of which engine
objects are alive.  The source never nulls _compiler and _rules after
destroying the objects, so the handle fields can dangle; live objects are
tracked separately by id. -/
structure YaraState where
  compiler : Option Nat
  rules : Option Nat
  currentRules : String
  liveCompilers : List Nat
  liveRules : List Nat
  nextId : Nat
deriving DecidableEq, Repr

/-- A freshly constructed Yara object: null handles, empty current path. -/
def initState : YaraState :=
  { compiler := none, rules := none, currentRules := ""
    liveCompilers := [], liveRules := [], nextId := 0 }

/-- Embeds _clean_compiler_and_rules (lines 76-84): destroys the pointed-to
objects when the handle fields are non-null; the fields keep their values. -/
def cleanCompilerAndRules (s : YaraState) : YaraState :=
  { s with
    liveCompilers :=
      match s.compiler with
      | some c => s.liveCompilers.erase c
      | none => s.liveCompilers
    liveRules :=
      match s.rules with
      | some r => s.liveRules.erase r
      | none => s.liveRules }

/-- A successful yr_compiler_create: stores a fresh live compiler object in
the _compiler field. -/
def allocCompiler (s : YaraState) : YaraState :=
  { s with compiler := some s.nextId
           liveCompilers := s.nextId :: s.liveCompilers
           nextId := s.nextId + 1 }

/-- A successful yr_rules_load or yr_compiler_get_rules: stores a fresh
live rule-set object in the _rules field. -/
def allocRules (s : YaraState) : YaraState :=
  { s with rules := some s.nextId
           liveRules := s.nextId :: s.liveRules
           nextId := s.nextId + 1 }

/-- Environment abstracting the filesystem and the engine calls made by
load_rules: which files exist, and the return codes of each engine call. -/
structure LoadEnv where
  fileExists : String → Bool
  rulesLoadRet : String → Nat
  compilerCreateRet : Nat
  fopenOk : String → Bool
  addFileRet : Nat
  getRulesRet : Nat
  rulesSaveRet : Nat

/-- Result of one load_rules call: the boolean return value, the object
state afterwards, and the side effects performed, in order. -/
structure LoadResult where
  ok : Bool
  st : YaraState
  events : List LoadEvent
deriving DecidableEq, Repr

/-- Embeds Yara::load_rules (lines 88-153).  Same-path calls return true at
once; otherwise the previous compiler and rules are destroyed, a compiled
artifact at path + "c" is preferred, ERROR_INVALID_FILE falls back to
compiling the source and saving the artifact, and only that compile path
records the loaded path in _current_rules. -/
def load_rules (env : LoadEnv) (s : YaraState) (p : String) : LoadResult :=
  if s.currentRules = p then
    { ok := true, st := s, events := [] }
  else
    let s1 := cleanCompilerAndRules s
    let target := if env.fileExists (p ++ "c") then p ++ "c" else p
    let ev0 := [LoadEvent.existsCheck (p ++ "c"), LoadEvent.rulesLoad target]
    let retval := env.rulesLoadRet target
    let s2 := if retval = ERROR_SUCCESS then allocRules s1 else s1
    if retval ≠ ERROR_SUCCESS ∧ retval ≠ ERROR_INVALID_FILE then
      { ok := false, st := s2, events := ev0 }
    else if retval = ERROR_SUCCESS then
      { ok := true, st := s2, events := ev0 }
    else if env.compilerCreateRet ≠ ERROR_SUCCESS then
      { ok := false, st := s2, events := ev0 }
    else
      let s3 := allocCompiler s2
      if env.fopenOk p = false then
        { ok := false, st := s3, events := ev0 ++ [LoadEvent.fileOpen p] }
      else
        let ev1 := ev0 ++ [LoadEvent.fileOpen p, LoadEvent.addFile p]
        if env.addFileRet ≠ ERROR_SUCCESS then
          { ok := false, st := s3, events := ev1 ++ [LoadEvent.fileClose] }
        else if env.getRulesRet ≠ ERROR_SUCCESS then
          { ok := false, st := s3, events := ev1 ++ [LoadEvent.fileClose] }
        else
          let s4 := allocRules s3
          let ev2 := ev1 ++ [LoadEvent.rulesSave (p ++ "c")]
          if env.rulesSaveRet ≠ ERROR_SUCCESS then
            { ok := false, st := s4, events := ev2 ++ [LoadEvent.fileClose] }
          else
            { ok := true, st := { s4 with currentRules := p }
              events := ev2 ++ [LoadEvent.fileClose] }

/-- Environment abstracting one engine scan run: the callback events the
engine would deliver, and the status code the scan call returns. -/
structure ScanEnv where
  msgs : List CallbackMsg
  retval : Nat

/-- Folds the callback over the events of a scan, threading cb_data. -/
def runCallbacks (msgs : List CallbackMsg) (cb : CallbackState) : CallbackState :=
  msgs.foldl (fun st m => (get_match_data m st).st) cb

/-- Observable outcome of a scan call: the returned match list, whether the
engine scan function was invoked, and which diagnostics were logged. -/
structure ScanOut where
  result : List Match
  engineInvoked : Bool
  loggedNoRules : Bool
  loggedError : Bool
deriving DecidableEq, Repr

/-- Embeds Yara::scan_bytes (lines 157-191).  A null rule handle or an
empty buffer short-circuits to an empty result without scanning (only the
null handle logs); a non-success scan return clears the accumulated
matches. -/
def scan_bytes (env : ScanEnv) (s : YaraState) (bytes : List Nat) : ScanOut :=
  if s.rules = none ∨ bytes.length = 0 then
    { result := [], engineInvoked := false
      loggedNoRules := s.rules.isNone, loggedError := false }
  else
    let cb := runCallbacks env.msgs { yara_matches := [], pe_info := none }
    if env.retval ≠ ERROR_SUCCESS then
      { result := [], engineInvoked := true
        loggedNoRules := false, loggedError := true }
    else
      { result := cb.yara_matches, engineInvoked := true
        loggedNoRules := false, loggedError := false }

/-- Embeds Yara::scan_file (lines 195-220).  Like scan_bytes but with the
optional sgpe data stored into cb_data, no empty-buffer case, and the same
clear-on-error policy. -/
def scan_file (env : ScanEnv) (s : YaraState) (path : String)
    (pe_data : Option SgpeData) : ScanOut :=
  if s.rules = none then
    { result := [], engineInvoked := false
      loggedNoRules := true, loggedError := false }
  else
    let cb := runCallbacks env.msgs { yara_matches := [], pe_info := pe_data }
    if env.retval ≠ ERROR_SUCCESS then
      { result := [], engineInvoked := true
        loggedNoRules := false, loggedError := true }
    else
      { result := cb.yara_matches, engineInvoked := true
        loggedNoRules := false, loggedError := false }

/-- Concrete environment in which a compiled artifact exists next to the
rule file and loads directly with success. -/
def envDirect : LoadEnv :=
  { fileExists := fun q => q == "ruleAc", rulesLoadRet := fun _ => ERROR_SUCCESS
    compilerCreateRet := ERROR_SUCCESS, fopenOk := fun _ => true
    addFileRet := ERROR_SUCCESS, getRulesRet := ERROR_SUCCESS
    rulesSaveRet := ERROR_SUCCESS }

/-- Concrete environment in which no compiled artifact exists, the source
file is not a compiled rule file, and compiling plus saving succeed. -/
def envCompile : LoadEnv :=
  { fileExists := fun _ => false, rulesLoadRet := fun _ => ERROR_INVALID_FILE
    compilerCreateRet := ERROR_SUCCESS, fopenOk := fun _ => true
    addFileRet := ERROR_SUCCESS, getRulesRet := ERROR_SUCCESS
    rulesSaveRet := ERROR_SUCCESS }

/-- Concrete environment in which yr_rules_load fails with a code that is
neither success nor invalid-file, so load_rules fails at once. -/
def envLoadFail : LoadEnv :=
  { fileExists := fun _ => false, rulesLoadRet := fun _ => 3
    compilerCreateRet := ERROR_SUCCESS, fopenOk := fun _ => true
    addFileRet := ERROR_SUCCESS, getRulesRet := ERROR_SUCCESS
    rulesSaveRet := ERROR_SUCCESS }

/-- Concrete environment in which compilation succeeds but persisting the
compiled artifact fails. -/
def envSaveFail : LoadEnv :=
  { fileExists := fun _ => false, rulesLoadRet := fun _ => ERROR_INVALID_FILE
    compilerCreateRet := ERROR_SUCCESS, fopenOk := fun _ => true
    addFileRet := ERROR_SUCCESS, getRulesRet := ERROR_SUCCESS
    rulesSaveRet := 1 }

/-- A concrete rule with one textual pattern that matched once. -/
def sampleRule : YrRule :=
  { metas := [("description", "sample")]
    strings := [{ is_hex := false, found := true
                  match_list := [{ data := [72, 0, 105] }] }] }

/-- A concrete scan run that reports one matching rule but whose scan call
returns a non-success code. -/
def senvErr : ScanEnv := { msgs := [.ruleMatching sampleRule], retval := 1 }

/-- A concrete scan run that reports one matching rule and succeeds. -/
def senvOk : ScanEnv := { msgs := [.ruleMatching sampleRule], retval := ERROR_SUCCESS }

section LoadRulesLemmas

theorem clean_currentRules (s : YaraState) :
    (cleanCompilerAndRules s).currentRules = s.currentRules := rfl

theorem clean_nextId (s : YaraState) :
    (cleanCompilerAndRules s).nextId = s.nextId := rfl

theorem allocRules_rules (s : YaraState) : (allocRules s).rules = some s.nextId := rfl

theorem allocRules_liveRules (s : YaraState) :
    (allocRules s).liveRules = s.nextId :: s.liveRules := rfl

theorem allocRules_liveCompilers (s : YaraState) :
    (allocRules s).liveCompilers = s.liveCompilers := rfl

theorem allocRules_nextId (s : YaraState) : (allocRules s).nextId = s.nextId + 1 := rfl

theorem allocRules_currentRules (s : YaraState) :
    (allocRules s).currentRules = s.currentRules := rfl

theorem allocCompiler_liveRules (s : YaraState) :
    (allocCompiler s).liveRules = s.liveRules := rfl

theorem allocCompiler_liveCompilers (s : YaraState) :
    (allocCompiler s).liveCompilers = s.nextId :: s.liveCompilers := rfl

theorem allocCompiler_nextId (s : YaraState) : (allocCompiler s).nextId = s.nextId + 1 := rfl

theorem allocCompiler_currentRules (s : YaraState) :
    (allocCompiler s).currentRules = s.currentRules := rfl

theorem load_rules_noop (env : LoadEnv) (s : YaraState) (p : String)
    (h : s.currentRules = p) :
    load_rules env s p = { ok := true, st := s, events := [] } := by
  unfold load_rules
  rw [if_pos h]

set_option maxHeartbeats 1000000 in
theorem load_rules_fail_currentRules (env : LoadEnv) (s : YaraState) (p : String) :
    (load_rules env s p).ok = false → (load_rules env s p).st.currentRules = s.currentRules := by
  simp only [load_rules]
  repeat' split
  all_goals intro h
  all_goals simp_all [allocRules, allocCompiler, cleanCompilerAndRules]

set_option maxHeartbeats 1000000 in
theorem load_rules_old_rules_dead (env : LoadEnv) (s : YaraState) (p : String) (r : Nat)
    (hne : s.currentRules ≠ p) (hr : r ∉ (cleanCompilerAndRules s).liveRules)
    (hlt : r < s.nextId) :
    r ∉ (load_rules env s p).st.liveRules := by
  have h1 : r ≠ s.nextId := Nat.ne_of_lt hlt
  have h2 : r ≠ s.nextId + 1 := by omega
  simp only [load_rules]
  repeat' split
  all_goals
    simp_all [allocRules_liveRules, allocRules_nextId, allocCompiler_liveRules,
      allocCompiler_nextId, allocRules_liveCompilers, allocCompiler_liveCompilers,
      clean_nextId]

set_option maxHeartbeats 1000000 in
theorem load_rules_old_compiler_dead (env : LoadEnv) (s : YaraState) (p : String) (c : Nat)
    (hne : s.currentRules ≠ p) (hc : c ∉ (cleanCompilerAndRules s).liveCompilers)
    (hlt : c < s.nextId) :
    c ∉ (load_rules env s p).st.liveCompilers := by
  have h1 : c ≠ s.nextId := Nat.ne_of_lt hlt
  have h2 : c ≠ s.nextId + 1 := by omega
  simp only [load_rules]
  repeat' split
  all_goals
    simp_all [allocRules_liveRules, allocRules_nextId, allocCompiler_liveRules,
      allocCompiler_nextId, allocRules_liveCompilers, allocCompiler_liveCompilers,
      clean_nextId]

set_option maxHeartbeats 1000000 in
theorem load_rules_compile_path (env : LoadEnv) (s : YaraState) (p : String)
    (h0 : s.currentRules ≠ p)
    (hex : env.fileExists (p ++ "c") = false)
    (hload : env.rulesLoadRet p = ERROR_INVALID_FILE)
    (hcc : env.compilerCreateRet = ERROR_SUCCESS)
    (hfo : env.fopenOk p = true)
    (haf : env.addFileRet = ERROR_SUCCESS)
    (hgr : env.getRulesRet = ERROR_SUCCESS)
    (hsave : env.rulesSaveRet = ERROR_SUCCESS) :
    load_rules env s p =
      { ok := true
        st := { allocRules (allocCompiler (cleanCompilerAndRules s)) with currentRules := p }
        events := [LoadEvent.existsCheck (p ++ "c"), LoadEvent.rulesLoad p,
          LoadEvent.fileOpen p, LoadEvent.addFile p, LoadEvent.rulesSave (p ++ "c"),
          LoadEvent.fileClose] } := by
  simp [load_rules, h0, hex, hload, hcc, hfo, haf, hgr, hsave,
    ERROR_SUCCESS, ERROR_INVALID_FILE]

end LoadRulesLemmas


section ExcerptLemmas

set_option maxRecDepth 8192 in
theorem char_ofNat_byte_ne_zero :
    ∀ b : Nat, b < 256 → b ≠ 0 → Char.ofNat b ≠ Char.ofNat 0 := by decide

theorem text_filter_map_aux (data : List Nat) (h : ∀ b ∈ data, b < 256) :
    (data.map (fun b => Char.ofNat b)).filter (fun c => !decide (c = Char.ofNat 0))
      = (data.filter (fun b => !decide (b = 0))).map Char.ofNat := by
  induction data with
  | nil => rfl
  | cons b bs ih =>
    have hb : b < 256 := h b (List.mem_cons_self b bs)
    have hbs : ∀ x ∈ bs, x < 256 := fun x hx => h x (List.mem_cons_of_mem b hx)
    by_cases hb0 : b = 0
    · subst hb0
      simp [List.filter_cons, ih hbs]
    · have hne := char_ofNat_byte_ne_zero b hb hb0
      simp [List.filter_cons, hb0, hne, ih hbs]

theorem text_filter_map (data : List Nat) (h : ∀ b ∈ data, b < 256) :
    (data.map (fun b => Char.ofNat b)).filter (fun c => c ≠ Char.ofNat 0)
      = (data.filter (fun b => b ≠ 0)).map Char.ofNat := by
  simpa only [ne_eq, decide_not] using text_filter_map_aux data h

theorem hexTokens_eq_map (n : Nat) (l : List Nat) :
    hexTokens n l = (l.take n).map (fun b => hexOf b ++ " ") := by
  induction l generalizing n with
  | nil => cases n <;> rfl
  | cons b bs ih =>
    cases n with
    | zero => rfl
    | succ m => simp [hexTokens, List.take_succ_cons, ih]

theorem take_min_length (l : List Nat) (n : Nat) : l.take (min n l.length) = l.take n := by
  rcases Nat.le_total n l.length with h | h
  · rw [Nat.min_eq_left h]
  · rw [Nat.min_eq_right h, List.take_length, List.take_of_length_le h]

end ExcerptLemmas

/-- C1 counterexample: a one-byte hex match with value 5 renders as the
single-digit token "5 ", not as the two-digit pair "05 " the claim
describes. -/
theorem C1_counterexample :
    hexByteExcerpt [5] = "5 "
    ∧ hexPairExcerptSpec [5] = "05 "
    ∧ hexByteExcerpt [5] ≠ hexPairExcerptSpec [5] := by
  decide

/-- C1 amended: the hex excerpt is the first min(20, length) bytes rendered
as minimal-width lowercase hex values each followed by a space, with the
"..." marker appended exactly when more than 20 bytes matched; and this is
what the callback appends for a found hex pattern. -/
theorem C1_hex_excerpt (data : List Nat) :
    hexByteExcerpt data
      = String.join (hexTokens 20 data) ++ (if 20 < data.length then "..." else "")
    ∧ (hexTokens 20 data).length = min 20 data.length
    ∧ (∀ (cb : CallbackState) (metas : List (String × String)) (ms : List YrMatch),
        (get_match_data
            (.ruleMatching
              { metas := metas
                strings := [{ is_hex := true, found := true, match_list := ms }] })
            cb).st.yara_matches
          = cb.yara_matches
            ++ [{ metadata := metas
                  found_strings := ms.map (fun m => hexByteExcerpt m.data) }]) := by
  refine ⟨?_, ?_, ?_⟩
  · unfold hexByteExcerpt
    rw [take_min_length, hexTokens_eq_map]
    split
    · rfl
    · exact (String.append_empty _).symm
  · rw [hexTokens_eq_map, List.length_map, List.length_take]
  · intro cb metas ms
    simp [get_match_data, buildMatch, stringExcerpts]

/-- C2: the claim fails: a first load that succeeds by direct artifact load
does not record the path, so the second call redoes the I/O. -/
theorem C2_counterexample :
    (load_rules envDirect initState "ruleA").ok = true ∧
    (load_rules envDirect (load_rules envDirect initState "ruleA").st "ruleA").events ≠ [] ∧
    (load_rules envDirect (load_rules envDirect initState "ruleA").st "ruleA").st ≠
      (load_rules envDirect initState "ruleA").st := by
  decide

/-- C2 amended: a repeated load is a success no-op exactly when the first
call left the requested path recorded as current. -/
theorem C2_idempotent_when_recorded (env env2 : LoadEnv) (s : YaraState) (p : String) :
    ((load_rules env s p).st.currentRules = p →
      load_rules env2 (load_rules env s p).st p =
        { ok := true, st := (load_rules env s p).st, events := [] })
    ∧ (s.currentRules = p →
      load_rules env s p = { ok := true, st := s, events := [] }) :=
  ⟨fun h => load_rules_noop env2 _ p h, fun h => load_rules_noop env s p h⟩

theorem C2_witness :
    (load_rules envCompile initState "ruleA").st.currentRules = "ruleA" ∧
    load_rules envDirect (load_rules envCompile initState "ruleA").st "ruleA" =
      { ok := true, st := (load_rules envCompile initState "ruleA").st, events := [] } := by
  have h : (load_rules envCompile initState "ruleA").st.currentRules = "ruleA" := by decide
  exact ⟨h, (C2_idempotent_when_recorded envCompile envDirect initState "ruleA").1 h⟩

/-- C3: the claim fails: the direct-load success branch returns true
without recording the path. -/
theorem C3_counterexample :
    (load_rules envDirect initState "ruleA").ok = true ∧
    (load_rules envDirect initState "ruleA").st.currentRules ≠ "ruleA" := by
  decide

set_option maxHeartbeats 1000000 in
/-- C3 amended: direct-load success returns true and leaves the recorded
current path unchanged. -/
theorem C3_direct_load_no_record (env : LoadEnv) (s : YaraState) (p : String)
    (h1 : s.currentRules ≠ p)
    (h2 : env.rulesLoadRet (if env.fileExists (p ++ "c") then p ++ "c" else p) = ERROR_SUCCESS) :
    (load_rules env s p).ok = true
    ∧ (load_rules env s p).st.currentRules = s.currentRules
    ∧ (load_rules env s p).st.rules = some s.nextId := by
  simp [load_rules, h1, h2, ERROR_SUCCESS, ERROR_INVALID_FILE,
    allocRules_rules, allocRules_currentRules, clean_currentRules, clean_nextId]

theorem C3_witness :
    (load_rules envDirect initState "ruleA").ok = true
    ∧ (load_rules envDirect initState "ruleA").st.currentRules = initState.currentRules
    ∧ (load_rules envDirect initState "ruleA").st.rules = some initState.nextId :=
  C3_direct_load_no_record envDirect initState "ruleA" (by decide) (by decide)

/-- C4: a textual excerpt is the matched bytes as text with all null bytes
removed; it never contains a null, and it is what the callback appends for
a found textual pattern. -/
theorem C4_text_excerpt (data : List Nat) (h : ∀ b ∈ data, b < 256) :
    (∀ c ∈ (textExcerpt data).data, c ≠ Char.ofNat 0)
    ∧ textExcerpt data = textExcerptSpec data
    ∧ (∀ (cb : CallbackState) (metas : List (String × String)),
        (get_match_data
            (.ruleMatching
              { metas := metas
                strings := [{ is_hex := false, found := true
                              match_list := [{ data := data }] }] })
            cb).st.yara_matches
          = cb.yara_matches ++ [{ metadata := metas, found_strings := [textExcerpt data] }]) := by
  refine ⟨?_, ?_, ?_⟩
  · intro c hc
    have := List.of_mem_filter hc
    simpa using this
  · exact congrArg String.mk (text_filter_map data h)
  · intro cb metas
    simp [get_match_data, buildMatch, stringExcerpts]

theorem C4_witness :
    (∀ c ∈ (textExcerpt [72, 0, 105]).data, c ≠ Char.ofNat 0)
    ∧ textExcerpt [72, 0, 105] = textExcerptSpec [72, 0, 105] :=
  ⟨(C4_text_excerpt [72, 0, 105] (by decide)).1,
   (C4_text_excerpt [72, 0, 105] (by decide)).2.1⟩

/-- C5: a non-success scan return code discards all accumulated matches in
both scan_bytes and scan_file, yielding an empty result with a logged
diagnostic. -/
theorem C5_error_discards_matches (senv : ScanEnv) (s : YaraState) (bytes : List Nat)
    (path : String) (pe : Option SgpeData) (h : senv.retval ≠ ERROR_SUCCESS) :
    (scan_bytes senv s bytes).result = []
    ∧ (scan_file senv s path pe).result = []
    ∧ ((scan_bytes senv s bytes).engineInvoked = true →
        (scan_bytes senv s bytes).loggedError = true)
    ∧ ((scan_file senv s path pe).engineInvoked = true →
        (scan_file senv s path pe).loggedError = true) := by
  refine ⟨?_, ?_, ?_, ?_⟩ <;> simp only [scan_bytes, scan_file] <;> split <;>
    simp [h]

theorem C5_witness :
    (scan_bytes senvErr (load_rules envCompile initState "ruleA").st [1]).result = []
    ∧ (scan_file senvErr (load_rules envCompile initState "ruleA").st "f" none).result = [] := by
  have t := C5_error_discards_matches senvErr (load_rules envCompile initState "ruleA").st
    [1] "f" none (by decide)
  exact ⟨t.1, t.2.1⟩

/-- C7: scanning with no rules loaded logs a diagnostic and returns an
empty result without invoking the engine. -/
theorem C7_no_rules_loaded (senv : ScanEnv) (s : YaraState) (bytes : List Nat)
    (path : String) (pe : Option SgpeData) (h : s.rules = none) :
    (scan_bytes senv s bytes).result = []
    ∧ (scan_bytes senv s bytes).engineInvoked = false
    ∧ (scan_bytes senv s bytes).loggedNoRules = true
    ∧ (scan_file senv s path pe).result = []
    ∧ (scan_file senv s path pe).engineInvoked = false
    ∧ (scan_file senv s path pe).loggedNoRules = true := by
  simp [scan_bytes, scan_file, h]

theorem C7_witness :
    (scan_bytes senvOk initState [1]).result = []
    ∧ (scan_bytes senvOk initState [1]).engineInvoked = false
    ∧ (scan_file senvOk initState "f" none).result = []
    ∧ (scan_file senvOk initState "f" none).engineInvoked = false := by
  have t := C7_no_rules_loaded senvOk initState [1] "f" none rfl
  exact ⟨t.1, t.2.1, t.2.2.2.1, t.2.2.2.2.1⟩

/-- C8: scan_bytes on an empty buffer returns an empty result and never
invokes the engine, whatever the rules state. -/
theorem C8_empty_buffer (senv : ScanEnv) (s : YaraState) :
    (scan_bytes senv s []).result = [] ∧ (scan_bytes senv s []).engineInvoked = false := by
  simp [scan_bytes]

/-- C6: the sgpe module import event fails the callback when no sgpe data
was supplied, attaches the supplied data otherwise, and an import of any
other module succeeds without attaching anything. -/
theorem C6_module_import (cb : CallbackState) (name : String) (d : SgpeData) :
    (cb.pe_info = none →
      get_match_data (.importModule "sgpe") cb =
        { code := ERROR_CALLBACK_ERROR, st := cb, module_data := none })
    ∧ (cb.pe_info = some d →
      get_match_data (.importModule "sgpe") cb =
        { code := ERROR_SUCCESS, st := cb, module_data := some d })
    ∧ (name ≠ "sgpe" →
      get_match_data (.importModule name) cb =
        { code := ERROR_SUCCESS, st := cb, module_data := none }) := by
  refine ⟨fun h => ?_, fun h => ?_, fun h => ?_⟩ <;> simp [get_match_data, h]

theorem C6_witness :
    get_match_data (.importModule "sgpe") { yara_matches := [], pe_info := none } =
      { code := ERROR_CALLBACK_ERROR
        st := { yara_matches := [], pe_info := none }, module_data := none }
    ∧ get_match_data (.importModule "sgpe") { yara_matches := [], pe_info := some ⟨7⟩ } =
      { code := ERROR_SUCCESS
        st := { yara_matches := [], pe_info := some ⟨7⟩ }, module_data := some ⟨7⟩ }
    ∧ get_match_data (.importModule "elf") { yara_matches := [], pe_info := none } =
      { code := ERROR_SUCCESS
        st := { yara_matches := [], pe_info := none }, module_data := none } :=
  ⟨(C6_module_import { yara_matches := [], pe_info := none } "elf" ⟨7⟩).1 rfl,
   (C6_module_import { yara_matches := [], pe_info := some ⟨7⟩ } "elf" ⟨7⟩).2.1 rfl,
   (C6_module_import { yara_matches := [], pe_info := none } "elf" ⟨7⟩).2.2 (by decide)⟩

set_option maxHeartbeats 1000000 in
/-- C9: after a compile-path load of p1 and a failing load of p2, the stale
path p1 stays recorded although its objects were destroyed, so a further
load of p1 is a success no-op. -/
theorem C9_stale_path_after_failed_reload (env1 env2 env3 : LoadEnv) (p1 p2 : String)
    (hp0 : p1 ≠ "")
    (hp : p1 ≠ p2)
    (hex : env1.fileExists (p1 ++ "c") = false)
    (hload : env1.rulesLoadRet p1 = ERROR_INVALID_FILE)
    (hcc : env1.compilerCreateRet = ERROR_SUCCESS)
    (hfo : env1.fopenOk p1 = true)
    (haf : env1.addFileRet = ERROR_SUCCESS)
    (hgr : env1.getRulesRet = ERROR_SUCCESS)
    (hsave : env1.rulesSaveRet = ERROR_SUCCESS)
    (hfail : (load_rules env2 (load_rules env1 initState p1).st p2).ok = false) :
    (load_rules env1 initState p1).ok = true
    ∧ (load_rules env1 initState p1).st.currentRules = p1
    ∧ (load_rules env1 initState p1).st.rules = some 1
    ∧ 1 ∈ (load_rules env1 initState p1).st.liveRules
    ∧ (load_rules env2 (load_rules env1 initState p1).st p2).st.currentRules = p1
    ∧ 1 ∉ (load_rules env2 (load_rules env1 initState p1).st p2).st.liveRules
    ∧ 0 ∉ (load_rules env2 (load_rules env1 initState p1).st p2).st.liveCompilers
    ∧ load_rules env3 (load_rules env2 (load_rules env1 initState p1).st p2).st p1 =
        { ok := true
          st := (load_rules env2 (load_rules env1 initState p1).st p2).st
          events := [] } := by
  have h0 : initState.currentRules ≠ p1 := fun e => hp0 e.symm
  have hfirst := load_rules_compile_path env1 initState p1 h0 hex hload hcc hfo haf hgr hsave
  have hst : (load_rules env1 initState p1).st =
      { compiler := some 0, rules := some 1, currentRules := p1
        liveCompilers := [0], liveRules := [1], nextId := 2 } := by
    rw [hfirst]; rfl
  have hok : (load_rules env1 initState p1).ok = true := by rw [hfirst]
  have hcur2 : (load_rules env2 (load_rules env1 initState p1).st p2).st.currentRules = p1 := by
    rw [load_rules_fail_currentRules env2 _ p2 hfail, hst]
  have hne2 : ((load_rules env1 initState p1).st).currentRules ≠ p2 := by
    rw [hst]; exact hp
  have hdead : 1 ∉ (load_rules env2 (load_rules env1 initState p1).st p2).st.liveRules := by
    apply load_rules_old_rules_dead env2 _ p2 1 hne2
    · rw [hst]; simp [cleanCompilerAndRules]
    · rw [hst]; exact Nat.one_lt_two
  have hdeadc : 0 ∉ (load_rules env2 (load_rules env1 initState p1).st p2).st.liveCompilers := by
    apply load_rules_old_compiler_dead env2 _ p2 0 hne2
    · rw [hst]; simp [cleanCompilerAndRules]
    · rw [hst]; exact Nat.two_pos
  have hnoop := load_rules_noop env3 _ p1 hcur2
  refine ⟨hok, by rw [hst], by rw [hst], by rw [hst]; simp, hcur2, hdead, hdeadc, hnoop⟩

theorem C9_witness :
    (load_rules envLoadFail (load_rules envCompile initState "ruleA").st "ruleB").ok = false
    ∧ (load_rules envCompile initState "ruleA").st.currentRules = "ruleA"
    ∧ (load_rules envLoadFail (load_rules envCompile initState "ruleA").st "ruleB").st.currentRules
        = "ruleA"
    ∧ 1 ∉ (load_rules envLoadFail (load_rules envCompile initState "ruleA").st
        "ruleB").st.liveRules
    ∧ load_rules envCompile
        (load_rules envLoadFail (load_rules envCompile initState "ruleA").st "ruleB").st "ruleA" =
        { ok := true
          st := (load_rules envLoadFail (load_rules envCompile initState "ruleA").st "ruleB").st
          events := [] } := by
  have hfail :
      (load_rules envLoadFail (load_rules envCompile initState "ruleA").st "ruleB").ok = false := by
    decide
  have t := C9_stale_path_after_failed_reload envCompile envLoadFail envCompile "ruleA" "ruleB"
    (by decide) (by decide) rfl rfl rfl rfl rfl rfl rfl hfail
  exact ⟨hfail, t.2.1, t.2.2.2.2.1, t.2.2.2.2.2.1, t.2.2.2.2.2.2.2⟩

set_option maxHeartbeats 1000000 in
/-- C10: when compilation succeeds but saving the artifact fails, the call
reports failure and records nothing, yet the compiled rules stay attached
and later scans use them. -/
theorem C10_save_failure_keeps_rules (env : LoadEnv) (s : YaraState) (p : String)
    (senv : ScanEnv) (b : Nat) (bs : List Nat) (path : String) (pe : Option SgpeData)
    (h0 : s.currentRules ≠ p)
    (hex : env.fileExists (p ++ "c") = false)
    (hload : env.rulesLoadRet p = ERROR_INVALID_FILE)
    (hcc : env.compilerCreateRet = ERROR_SUCCESS)
    (hfo : env.fopenOk p = true)
    (haf : env.addFileRet = ERROR_SUCCESS)
    (hgr : env.getRulesRet = ERROR_SUCCESS)
    (hsave : env.rulesSaveRet ≠ ERROR_SUCCESS) :
    (load_rules env s p).ok = false
    ∧ (load_rules env s p).st.currentRules = s.currentRules
    ∧ (load_rules env s p).st.rules = some (s.nextId + 1)
    ∧ s.nextId + 1 ∈ (load_rules env s p).st.liveRules
    ∧ (scan_bytes senv (load_rules env s p).st (b :: bs)).engineInvoked = true
    ∧ (scan_file senv (load_rules env s p).st path pe).engineInvoked = true
    ∧ (senv.retval = ERROR_SUCCESS →
        (scan_bytes senv (load_rules env s p).st (b :: bs)).result =
          (runCallbacks senv.msgs { yara_matches := [], pe_info := none }).yara_matches) := by
  have hsave0 : env.rulesSaveRet ≠ 0 := by simpa [ERROR_SUCCESS] using hsave
  have hres : load_rules env s p =
      { ok := false
        st := allocRules (allocCompiler (cleanCompilerAndRules s))
        events := [LoadEvent.existsCheck (p ++ "c"), LoadEvent.rulesLoad p,
          LoadEvent.fileOpen p, LoadEvent.addFile p, LoadEvent.rulesSave (p ++ "c"),
          LoadEvent.fileClose] } := by
    simp [load_rules, h0, hex, hload, hcc, hfo, haf, hgr, hsave0,
      ERROR_SUCCESS, ERROR_INVALID_FILE]
  rw [hres]
  have hrules : (allocRules (allocCompiler (cleanCompilerAndRules s))).rules
      = some (s.nextId + 1) := rfl
  refine ⟨rfl, rfl, rfl, ?_, ?_, ?_, ?_⟩
  · simp [allocRules_liveRules, allocCompiler_nextId, clean_nextId]
  · simp only [scan_bytes, hrules]
    split
    · simp_all
    · split <;> rfl
  · simp only [scan_file, hrules]
    split
    · simp_all
    · split <;> rfl
  · intro hret
    simp [scan_bytes, hrules, hret, ERROR_SUCCESS]

theorem C10_witness :
    (load_rules envSaveFail initState "ruleA").ok = false
    ∧ (load_rules envSaveFail initState "ruleA").st.currentRules = initState.currentRules
    ∧ (load_rules envSaveFail initState "ruleA").st.rules = some 1
    ∧ (scan_bytes senvOk (load_rules envSaveFail initState "ruleA").st [1]).engineInvoked = true
    ∧ (scan_bytes senvOk (load_rules envSaveFail initState "ruleA").st [1]).result =
        (runCallbacks senvOk.msgs { yara_matches := [], pe_info := none }).yara_matches := by
  have t := C10_save_failure_keeps_rules envSaveFail initState "ruleA" senvOk 1 [] "f" none
    (by decide) rfl rfl rfl rfl rfl rfl (by decide)
  exact ⟨t.1, t.2.1, t.2.2.1, t.2.2.2.2.1, t.2.2.2.2.2.2 rfl⟩

end YaraWrapper
